import Mathlib

/-!
Shallow embedding of the Darel-Blog Flask application (src/main.py).

The application is CRUD over three tables (User, BlogPost, Comment) plus
session-based authentication, an admin-only decorator, and a contact
handler that sends one SMTP message.  Handlers are modelled as pure
functions from the application state (database tables, next-autoincrement
ids, current session) to a result consisting of an HTTP response, the new
state, and a trace of SMTP effects.  Template rendering is modelled by the
template name only; form validation (WTForms `validate_on_submit`) is
modelled by a boolean `valid` flag on each form.
-/

namespace Blog

/-- Row of the `users` table (main.py, class User). -/
structure User where
  id : Nat
  email : String
  password : String
  name : String
deriving Repr, DecidableEq

/-- Row of the `comment` table (main.py, class Comment).  The foreign keys
`author_id` and `post_id` are nullable columns, hence `Option Nat`. -/
structure Comment where
  id : Nat
  author_id : Option Nat
  post_id : Option Nat
  text : String
deriving Repr, DecidableEq

/-- Row of the `blog_posts` table (main.py, class BlogPost).  The `title`
column is declared `unique=True`; the database enforces this on commit. -/
structure BlogPost where
  id : Nat
  author_id : Option Nat
  title : String
  subtitle : String
  date : String
  body : String
  img_url : String
deriving Repr, DecidableEq

/-- The three tables plus the sqlite autoincrement counters (primary keys
start at 1). -/
structure DB where
  users : List User
  posts : List BlogPost
  comments : List Comment
  nextUserId : Nat
  nextPostId : Nat
  nextCommentId : Nat
deriving Repr, DecidableEq

/-- Application state: the database plus the flask-login session, which
stores the id of the logged-in user (None when anonymous). -/
structure AppState where
  db : DB
  session : Option Nat
deriving Repr, DecidableEq

/-- State after `db.create_all()` on a fresh database: all tables empty. -/
def initState : AppState := ⟨⟨[], [], [], 1, 1, 1⟩, none⟩

/-- HTTP response: a rendered template (with any flashed messages), a
redirect (with any flashed messages), or an error status code. -/
inductive Response where
  | render (template : String) (flashes : List String)
  | redirect (target : String) (flashes : List String)
  | httpError (code : Nat)
deriving Repr, DecidableEq

/-- Observable SMTP effects of the contact handler, in order. -/
inductive Effect where
  | smtpConnect (host : String)
  | smtpStartTLS
  | smtpLogin (user pass : Option String)
  | smtpSendmail (from_addr to_addrs : Option String) (msg : String)
  | smtpClose
deriving Repr, DecidableEq

/-- Result of running one handler: response, new state, SMTP effect trace. -/
structure HResult where
  resp : Response
  st : AppState
  effects : List Effect
deriving Repr, DecidableEq

/-- Environment variables read by the contact handler
(`os.environ.get` returns None when unset). -/
structure Env where
  CONTACT_EMAIL : Option String
  CONTACT_PASS : Option String
  MY_EMAIL : Option String
deriving Repr, DecidableEq

/-- RegisterForm (forms.py): name, email, password;
`valid` models `validate_on_submit()`. -/
structure RegisterForm where
  name : String
  email : String
  password : String
  valid : Bool
deriving Repr, DecidableEq

/-- LoginForm (forms.py): email, password. -/
structure LoginForm where
  email : String
  password : String
  valid : Bool
deriving Repr, DecidableEq

/-- CommentForm (forms.py): the comment text. -/
structure CommentForm where
  comment : String
  valid : Bool
deriving Repr, DecidableEq

/-- CreatePostForm (forms.py): title, subtitle, img_url, body. -/
structure CreatePostForm where
  title : String
  subtitle : String
  img_url : String
  body : String
  valid : Bool
deriving Repr, DecidableEq

/-- Model of werkzeug `generate_password_hash` (external library): a
deterministic injective tag.  The claims under verification never depend
on the hashing scheme itself, only on whether a check succeeds. -/
def generate_password_hash (password : String) : String :=
  "pbkdf2:" ++ password

/-- Model of werkzeug `check_password_hash` (external library): the check
succeeds exactly when the stored hash is the hash of the password. -/
def check_password_hash (pwhash : String) (password : String) : Bool :=
  pwhash == generate_password_hash password

/-- `load_user` (main.py line 27): resolve a session user id to a User row
by primary key; None when the row no longer exists. -/
def load_user (db : DB) (user_id : Nat) : Option User :=
  db.users.find? (fun u => u.id == user_id)

/-- flask-login `current_user`: resolve the session through `load_user`;
None models the anonymous user (`is_authenticated` false). -/
def currentUser (st : AppState) : Option User :=
  st.session.bind (load_user st.db)

/-- The guard condition of `admin_only` (main.py line 87), positively:
`current_user.is_authenticated and current_user.id == 1`. -/
def isAdmin (st : AppState) : Bool :=
  match currentUser st with
  | some u => u.id == 1
  | none => false

/-- `admin_only` decorator (main.py lines 84-90): if not authenticated or
primary key differs from 1, abort(403) with no side effect; otherwise run
the wrapped handler unchanged. -/
def admin_only (handler : AppState → HResult) (st : AppState) : HResult :=
  if isAdmin st then handler st else ⟨.httpError 403, st, []⟩

/-- flask-login `@login_required`: the app never sets
`login_manager.login_view`, so an anonymous request is aborted with 401. -/
def login_required (handler : AppState → HResult) (st : AppState) : HResult :=
  if (currentUser st).isSome then handler st else ⟨.httpError 401, st, []⟩

/-- `User.query.filter_by(email=email).first()` (main.py line 122). -/
def findUserByEmail (db : DB) (email : String) : Option User :=
  db.users.find? (fun u => u.email == email)

/-- `db.get_or_404(BlogPost, post_id)` lookup part: find by primary key. -/
def getPost (db : DB) (post_id : Nat) : Option BlogPost :=
  db.posts.find? (fun p => p.id == post_id)

/-- Does some stored post already use this title?  Mirrors the database
unique constraint check on INSERT into `blog_posts`. -/
def titleTaken (posts : List BlogPost) (title : String) : Bool :=
  posts.any (fun p => p.title == title)

/-- Replace the first row whose id matches (the row SQLAlchemy updates). -/
def replaceFirst (post_id : Nat) (newp : BlogPost) : List BlogPost → List BlogPost
  | [] => []
  | p :: ps => if p.id == post_id then newp :: ps else p :: replaceFirst post_id newp ps

/-- `register` handler (main.py lines 117-136).  On POST with a valid
form: if the email is already registered, flash and redirect to login;
otherwise create the user with a hashed password, log them in
(`login_user`), and redirect home. -/
def register (form : RegisterForm) (isPost : Bool) (st : AppState) : HResult :=
  if isPost && form.valid then
    match findUserByEmail st.db form.email with
    | none =>
      let new_user : User :=
        ⟨st.db.nextUserId, form.email, generate_password_hash form.password, form.name⟩
      let db' : DB :=
        { st.db with users := st.db.users ++ [new_user], nextUserId := st.db.nextUserId + 1 }
      ⟨.redirect "/" [], ⟨db', some new_user.id⟩, []⟩
    | some _ =>
      ⟨.redirect "/login" ["E-mail already registered!"], st, []⟩
  else ⟨.render "register.html" [], st, []⟩

/-- `login` handler (main.py lines 140-153).  On a valid form: look up by
email; on a found user with a matching hash, `login_user` and redirect
home; otherwise (unknown email OR hash mismatch) flash the one generic
message and redirect back to login. -/
def login (form : LoginForm) (st : AppState) : HResult :=
  if form.valid then
    match findUserByEmail st.db form.email with
    | some user =>
      if check_password_hash user.password form.password then
        ⟨.redirect "/" [], { st with session := some user.id }, []⟩
      else
        ⟨.redirect "/login" ["Invalid email or password!"], st, []⟩
    | none =>
      ⟨.redirect "/login" ["Invalid email or password!"], st, []⟩
  else ⟨.render "login.html" [], st, []⟩

/-- `logout` handler body (main.py lines 157-161): clear the session and
redirect home.  The `login_required` gate is applied at dispatch. -/
def logout (st : AppState) : HResult :=
  ⟨.redirect "/" [], { st with session := none }, []⟩

/-- `get_all_posts` handler (main.py lines 165-169): read-only render. -/
def get_all_posts (st : AppState) : HResult :=
  ⟨.render "index.html" [], st, []⟩

/-- `show_post` handler (main.py lines 174-195): 404 when the post id is
absent; on a valid comment submission by an authenticated user, persist
the comment and redirect back to the post; unauthenticated submitters get
a flash and a redirect to login with no persistence. -/
def show_post (post_id : Nat) (form : CommentForm) (st : AppState) : HResult :=
  match getPost st.db post_id with
  | none => ⟨.httpError 404, st, []⟩
  | some _ =>
    if form.valid then
      match currentUser st with
      | some u =>
        let new_comment : Comment :=
          ⟨st.db.nextCommentId, some u.id, some post_id, form.comment⟩
        let db' : DB :=
          { st.db with comments := st.db.comments ++ [new_comment],
                       nextCommentId := st.db.nextCommentId + 1 }
        ⟨.redirect ("/post/" ++ toString post_id) [], { st with db := db' }, []⟩
      | none =>
        ⟨.redirect "/login" ["You have to login first!"], st, []⟩
    else ⟨.render "post.html" [], st, []⟩

/-- `add_new_post` handler body (main.py lines 200-217); the `admin_only`
guard is applied at dispatch.  On a valid form the new row is committed;
the database rejects the commit with an IntegrityError (an unhandled
server error, modelled as 500) when the title collides with an existing
row, because `title` is `unique=True`. -/
def add_new_post (form : CreatePostForm) (today : String) (st : AppState) : HResult :=
  if form.valid then
    if titleTaken st.db.posts form.title then
      ⟨.httpError 500, st, []⟩
    else
      let new_post : BlogPost :=
        ⟨st.db.nextPostId, (currentUser st).map (fun u => u.id),
         form.title, form.subtitle, today, form.body, form.img_url⟩
      let db' : DB :=
        { st.db with posts := st.db.posts ++ [new_post], nextPostId := st.db.nextPostId + 1 }
      ⟨.redirect "/" [], { st with db := db' }, []⟩
  else ⟨.render "make-post.html" [], st, []⟩

/-- `edit_post` handler body (main.py lines 222-241); the `admin_only`
guard is applied at dispatch.  404 when the id is absent; on a valid form
it overwrites title, subtitle, img_url and body, reassigns the author to
the current user, leaves date untouched, and commits.  The commit is
rejected by the unique-title constraint (modelled as 500) when the new
title equals a different stored row's title. -/
def edit_post (post_id : Nat) (form : CreatePostForm) (st : AppState) : HResult :=
  match getPost st.db post_id with
  | none => ⟨.httpError 404, st, []⟩
  | some post =>
    if form.valid then
      if st.db.posts.any (fun p => !(p.id == post.id) && p.title == form.title) then
        ⟨.httpError 500, st, []⟩
      else
        let updated : BlogPost :=
          { post with title := form.title, subtitle := form.subtitle,
                      img_url := form.img_url,
                      author_id := (currentUser st).map (fun u => u.id),
                      body := form.body }
        let db' : DB := { st.db with posts := replaceFirst post_id updated st.db.posts }
        ⟨.redirect ("/post/" ++ toString post.id) [], { st with db := db' }, []⟩
    else ⟨.render "make-post.html" [], st, []⟩

/-- `delete_post` handler body (main.py lines 246-252); the `admin_only`
guard is applied at dispatch.  404 when the id is absent; otherwise the
row is deleted (referencing comments are left as they are) and the
response redirects to the listing. -/
def delete_post (post_id : Nat) (st : AppState) : HResult :=
  match getPost st.db post_id with
  | none => ⟨.httpError 404, st, []⟩
  | some _ =>
    ⟨.redirect "/" [],
     { st with db := { st.db with posts := st.db.posts.filter (fun p => !(p.id == post_id)) } },
     []⟩

/-- `about` handler (main.py lines 256-258). -/
def about (st : AppState) : HResult :=
  ⟨.render "about.html" [], st, []⟩

/-- Python str() of an optional form field: `request.form.get` yields None
for an absent field, and an f-string renders None as the text None. -/
def pyStr : Option String → String
  | some s => s
  | none => "None"

/-- The f-string body of the contact message (main.py line 269). -/
def contactMsg (name email message : Option String) : String :=
  "By:" ++ pyStr name ++ "  " ++ pyStr email ++ "\n" ++ pyStr message

/-- The SMTP exchange of one contact POST (main.py lines 266-270). -/
def smtpEffects (env : Env) (msg : String) : List Effect :=
  [.smtpConnect "smtp.gmail.com", .smtpStartTLS,
   .smtpLogin env.CONTACT_EMAIL env.CONTACT_PASS,
   .smtpSendmail env.CONTACT_EMAIL env.MY_EMAIL msg,
   .smtpClose]

/-- `contact` handler body (main.py lines 262-272); the `login_required`
gate is applied at dispatch.  On POST: open a connection, starttls, log
in, send exactly one message interpolating the three form fields, close,
and redirect home; no branch inspects any delivery outcome. -/
def contact (env : Env) (isPost : Bool) (name email message : Option String)
    (st : AppState) : HResult :=
  if isPost then
    ⟨.redirect "/" [], st, smtpEffects env (contactMsg name email message)⟩
  else ⟨.render "contact.html" [], st, []⟩

/-- One HTTP request, with its parsed route arguments and form data. -/
inductive Request where
  | reqRegister (form : RegisterForm) (isPost : Bool)
  | reqLogin (form : LoginForm)
  | reqLogout
  | reqIndex
  | reqShowPost (post_id : Nat) (form : CommentForm)
  | reqAddNewPost (form : CreatePostForm) (today : String)
  | reqEditPost (post_id : Nat) (form : CreatePostForm)
  | reqDeletePost (post_id : Nat)
  | reqAbout
  | reqContact (isPost : Bool) (name email message : Option String)
deriving Repr, DecidableEq

/-- Route dispatch: each handler with the decorators the source applies
(`admin_only` on new-post, edit-post and delete; `login_required` on
logout and contact). -/
def dispatch (env : Env) : Request → AppState → HResult
  | .reqRegister form isPost, st => register form isPost st
  | .reqLogin form, st => login form st
  | .reqLogout, st => login_required logout st
  | .reqIndex, st => get_all_posts st
  | .reqShowPost post_id form, st => show_post post_id form st
  | .reqAddNewPost form today, st => admin_only (add_new_post form today) st
  | .reqEditPost post_id form, st => admin_only (edit_post post_id form) st
  | .reqDeletePost post_id, st => admin_only (delete_post post_id) st
  | .reqAbout, st => about st
  | .reqContact isPost n e m, st => login_required (contact env isPost n e m) st

/-- Run a sequence of requests from a state. -/
def runAll (env : Env) : List Request → AppState → AppState
  | [], st => st
  | r :: rs, st => runAll env rs (dispatch env r st).st

/-- The title-uniqueness invariant of the stored posts. -/
def titlesUnique (st : AppState) : Prop :=
  (st.db.posts.map (fun p => p.title)).Nodup

/-! Concrete sample data used to witness the theorems below. -/

/-- The distinguished administrator (primary key 1). -/
def uAdmin : User := ⟨1, "admin@blog.io", generate_password_hash "adminpw", "Admin"⟩

/-- An ordinary registered user. -/
def uBob : User := ⟨2, "bob@blog.io", generate_password_hash "bobpw", "Bob"⟩

/-- A stored post with title A. -/
def postA : BlogPost := ⟨1, some 1, "A", "sub a", "May 01, 2024", "body a", "img a"⟩

/-- A second stored post with title B. -/
def postB : BlogPost := ⟨2, some 1, "B", "sub b", "May 02, 2024", "body b", "img b"⟩

/-- A sample database with two users and two posts. -/
def dbSample : DB := ⟨[uAdmin, uBob], [postA, postB], [], 3, 3, 1⟩

/-- Sample state with the administrator logged in. -/
def stAdmin : AppState := ⟨dbSample, some 1⟩

/-- Sample state with the ordinary user logged in. -/
def stBob : AppState := ⟨dbSample, some 2⟩

/-- Sample state with no session. -/
def stAnon : AppState := ⟨dbSample, none⟩

/-- Sample environment configuration. -/
def envSample : Env := ⟨some "contact@blog.io", some "secret", some "me@blog.io"⟩

/-- A valid CreatePostForm fixture. -/
def pform : CreatePostForm := ⟨"C", "sub c", "img c", "body c", true⟩

/-- C1: for every request to the create-post, edit-post or delete-post
route, if there is no active session or the current identity's primary key
is not 1, the response is HTTP 403 and the state is unchanged; otherwise
the wrapped handler runs unchanged. -/
theorem admin_guard (env : Env) (form : CreatePostForm) (today : String)
    (post_id : Nat) (st : AppState) :
    (isAdmin st = false →
      dispatch env (.reqAddNewPost form today) st = ⟨.httpError 403, st, []⟩ ∧
      dispatch env (.reqEditPost post_id form) st = ⟨.httpError 403, st, []⟩ ∧
      dispatch env (.reqDeletePost post_id) st = ⟨.httpError 403, st, []⟩) ∧
    (isAdmin st = true →
      dispatch env (.reqAddNewPost form today) st = add_new_post form today st ∧
      dispatch env (.reqEditPost post_id form) st = edit_post post_id form st ∧
      dispatch env (.reqDeletePost post_id) st = delete_post post_id st) := by
  constructor <;> intro h <;> simp [dispatch, admin_only, h]

/-- Witness for C1 at concrete inputs: a non-admin session is rejected
with 403 and an unchanged state, while the admin reaches the handler. -/
theorem admin_guard_witness :
    dispatch envSample (.reqDeletePost 1) stBob = ⟨.httpError 403, stBob, []⟩ ∧
    dispatch envSample (.reqDeletePost 1) stAdmin = delete_post 1 stAdmin :=
  ⟨((admin_guard envSample pform "May 03, 2024" 1 stBob).1 (by decide)).2.2,
   ((admin_guard envSample pform "May 03, 2024" 1 stAdmin).2 (by decide)).2.2⟩

/-- C2: for every post id not present in storage, the show_post, edit_post
and delete_post handlers each return HTTP 404 and leave the whole state
(posts, comments, users, session) unchanged. -/
theorem missing_post_404 (post_id : Nat) (cform : CommentForm)
    (eform : CreatePostForm) (st : AppState)
    (h : getPost st.db post_id = none) :
    show_post post_id cform st = ⟨.httpError 404, st, []⟩ ∧
    edit_post post_id eform st = ⟨.httpError 404, st, []⟩ ∧
    delete_post post_id st = ⟨.httpError 404, st, []⟩ := by
  simp [show_post, edit_post, delete_post, h]

/-- Witness for C2: post id 99 is absent from the sample state and all
three handlers answer 404 there without changing the state. -/
theorem missing_post_404_witness :
    getPost stAdmin.db 99 = none ∧
    (show_post 99 ⟨"hi", true⟩ stAdmin = ⟨.httpError 404, stAdmin, []⟩ ∧
     edit_post 99 pform stAdmin = ⟨.httpError 404, stAdmin, []⟩ ∧
     delete_post 99 stAdmin = ⟨.httpError 404, stAdmin, []⟩) :=
  ⟨by decide, missing_post_404 99 ⟨"hi", true⟩ pform stAdmin (by decide)⟩

/-- C9: on the admin-guarded routes the authorization check precedes the
existence check: a non-admin request to edit-post or delete-post with a
missing post id is answered 403, never 404. -/
theorem guard_precedes_lookup (env : Env) (post_id : Nat)
    (eform : CreatePostForm) (st : AppState)
    (hAdmin : isAdmin st = false) (_hMissing : getPost st.db post_id = none) :
    dispatch env (.reqEditPost post_id eform) st = ⟨.httpError 403, st, []⟩ ∧
    dispatch env (.reqDeletePost post_id) st = ⟨.httpError 403, st, []⟩ ∧
    (dispatch env (.reqEditPost post_id eform) st).resp ≠ .httpError 404 ∧
    (dispatch env (.reqDeletePost post_id) st).resp ≠ .httpError 404 := by
  refine ⟨?_, ?_, ?_, ?_⟩ <;> simp [dispatch, admin_only, hAdmin]

/-- Witness for C9: the anonymous identity asking to edit or delete the
absent post 99 receives 403 in the sample state. -/
theorem guard_precedes_lookup_witness :
    dispatch envSample (.reqEditPost 99 pform) stAnon = ⟨.httpError 403, stAnon, []⟩ ∧
    dispatch envSample (.reqDeletePost 99) stAnon = ⟨.httpError 403, stAnon, []⟩ ∧
    (dispatch envSample (.reqEditPost 99 pform) stAnon).resp ≠ .httpError 404 ∧
    (dispatch envSample (.reqDeletePost 99) stAnon).resp ≠ .httpError 404 :=
  guard_precedes_lookup envSample 99 pform stAnon (by decide) (by decide)

/-- C3: a registration submission whose email already belongs to an
existing User creates no second row (the state is unchanged) and responds
with a flash message and a redirect to the login page. -/
theorem register_existing_email (form : RegisterForm) (st : AppState) (u : User)
    (hv : form.valid = true)
    (hfound : findUserByEmail st.db form.email = some u) :
    register form true st = ⟨.redirect "/login" ["E-mail already registered!"], st, []⟩ := by
  simp [register, hv, hfound]

/-- Witness for C3: registering bob's email again changes nothing and
redirects to login. -/
theorem register_existing_email_witness :
    register ⟨"Bobby", "bob@blog.io", "otherpw", true⟩ true stAnon
      = ⟨.redirect "/login" ["E-mail already registered!"], stAnon, []⟩ :=
  register_existing_email ⟨"Bobby", "bob@blog.io", "otherpw", true⟩ stAnon uBob
    (by decide) (by decide)

/-- C4: every failing login submission, whether the email is unknown or
the stored hash does not match, establishes no session and produces one
and the same response (generic flash, redirect to login), so the two
failure causes are indistinguishable. -/
theorem login_failure_uniform (form : LoginForm) (st : AppState)
    (hv : form.valid = true)
    (hfail : Option.all (fun u => !check_password_hash u.password form.password)
      (findUserByEmail st.db form.email) = true) :
    login form st = ⟨.redirect "/login" ["Invalid email or password!"], st, []⟩ := by
  unfold login
  rw [hv]
  cases hu : findUserByEmail st.db form.email with
  | none => simp
  | some u =>
    rw [hu] at hfail
    simp [Option.all] at hfail
    simp [hfail]

/-- Witness for C4 at two concrete failures: an unknown email and a wrong
password for an existing email yield literally the same response and leave
the state (hence the session) unchanged. -/
theorem login_failure_uniform_witness :
    login ⟨"nobody@blog.io", "whatever", true⟩ stAnon
      = ⟨.redirect "/login" ["Invalid email or password!"], stAnon, []⟩ ∧
    login ⟨"bob@blog.io", "wrongpw", true⟩ stAnon
      = ⟨.redirect "/login" ["Invalid email or password!"], stAnon, []⟩ :=
  ⟨login_failure_uniform ⟨"nobody@blog.io", "whatever", true⟩ stAnon (by decide) (by decide),
   login_failure_uniform ⟨"bob@blog.io", "wrongpw", true⟩ stAnon (by decide) (by decide)⟩

/-- C5: a valid comment submission on an existing post while the identity
is unauthenticated persists nothing (the state is unchanged) and responds
with a flash plus a redirect to the login page. -/
theorem unauthenticated_comment (post_id : Nat) (form : CommentForm)
    (st : AppState) (post : BlogPost)
    (hpost : getPost st.db post_id = some post)
    (hv : form.valid = true)
    (hanon : currentUser st = none) :
    show_post post_id form st = ⟨.redirect "/login" ["You have to login first!"], st, []⟩ := by
  simp [show_post, hpost, hv, hanon]

/-- Witness for C5: an anonymous valid comment on post 1 leaves the state
unchanged and redirects to login. -/
theorem unauthenticated_comment_witness :
    show_post 1 ⟨"nice post", true⟩ stAnon
      = ⟨.redirect "/login" ["You have to login first!"], stAnon, []⟩ :=
  unauthenticated_comment 1 ⟨"nice post", true⟩ stAnon postA
    (by decide) (by decide) (by decide)

/-- C8: every authenticated POST to the contact route performs exactly the
SMTP exchange that sends one message with the three submitted fields
interpolated into the body, closes the connection, and redirects home; the
handler observes no delivery outcome, so the response does not depend on
one. -/
theorem contact_sends_one (env : Env) (n e m : Option String)
    (st : AppState) (u : User)
    (hauth : currentUser st = some u) :
    dispatch env (.reqContact true n e m) st
      = ⟨.redirect "/" [], st, smtpEffects env (contactMsg n e m)⟩ ∧
    (smtpEffects env (contactMsg n e m)).countP
      (fun ef => match ef with | .smtpSendmail _ _ _ => true | _ => false) = 1 ∧
    (smtpEffects env (contactMsg n e m)).getLast? = some .smtpClose := by
  refine ⟨?_, ?_, ?_⟩
  · simp [dispatch, login_required, contact, hauth]
  · rfl
  · rfl

/-- Witness for C8: bob, logged in, POSTs the contact form; the one
message carries his fields and the connection is closed before the
redirect home. -/
theorem contact_sends_one_witness :
    dispatch envSample (.reqContact true (some "Bob") (some "bob@blog.io") (some "hello")) stBob
      = ⟨.redirect "/" [], stBob,
         smtpEffects envSample (contactMsg (some "Bob") (some "bob@blog.io") (some "hello"))⟩ :=
  (contact_sends_one envSample (some "Bob") (some "bob@blog.io") (some "hello")
    stBob uBob (by decide)).1

/-- C10: an authenticated contact POST with an absent name, email or
message field does not fail: the missing field is interpolated into the
outgoing message body as the text None, the message is still sent, and the
submitter is redirected home. -/
theorem contact_missing_field (env : Env) (st : AppState) (u : User)
    (hauth : currentUser st = some u) (a b : String) :
    dispatch env (.reqContact true none (some a) (some b)) st
      = ⟨.redirect "/" [], st, smtpEffects env ("By:None  " ++ a ++ "\n" ++ b)⟩ ∧
    dispatch env (.reqContact true (some a) none (some b)) st
      = ⟨.redirect "/" [], st, smtpEffects env ("By:" ++ a ++ "  None\n" ++ b)⟩ ∧
    dispatch env (.reqContact true (some a) (some b) none) st
      = ⟨.redirect "/" [], st, smtpEffects env ("By:" ++ a ++ "  " ++ b ++ "\nNone")⟩ := by
  refine ⟨?_, ?_, ?_⟩ <;>
    simp [dispatch, login_required, contact, hauth, contactMsg, pyStr,
      String.append_assoc]

/-- Witness for C10: bob omits the name field; the sent body starts with
By:None and the response is the redirect home. -/
theorem contact_missing_field_witness :
    dispatch envSample (.reqContact true none (some "bob@blog.io") (some "hi")) stBob
      = ⟨.redirect "/" [], stBob, smtpEffects envSample "By:None  bob@blog.io\nhi"⟩ :=
  (contact_missing_field envSample stBob uBob (by decide) "bob@blog.io" "hi").1

/-- Finding by id after replacing the first row with that id yields the
replacement, provided the replacement keeps the id and a row with the id
was present. -/
theorem find?_replaceFirst (l : List BlogPost) (post_id : Nat)
    (newp post : BlogPost)
    (hid : (newp.id == post_id) = true)
    (hfound : l.find? (fun p => p.id == post_id) = some post) :
    (replaceFirst post_id newp l).find? (fun p => p.id == post_id) = some newp := by
  induction l with
  | nil => simp at hfound
  | cons p ps ih =>
    by_cases h : (p.id == post_id) = true
    · simp [replaceFirst, h, List.find?, hid]
    · rw [List.find?] at hfound
      simp only [h] at hfound
      simp only [replaceFirst, h, if_false, Bool.false_eq_true]
      rw [List.find?]
      simp only [h]
      exact ih hfound

/-- Rows whose id differs from the replaced one survive `replaceFirst`. -/
theorem mem_replaceFirst_of_ne (l : List BlogPost) (post_id : Nat)
    (newp q : BlogPost)
    (hq : q ∈ l) (hne : (q.id == post_id) = false) :
    q ∈ replaceFirst post_id newp l := by
  induction l with
  | nil => simp at hq
  | cons p ps ih =>
    rcases List.mem_cons.mp hq with hqp | hqs
    · subst hqp
      simp [replaceFirst, hne]
    · by_cases h : (p.id == post_id) = true
      · simp [replaceFirst, h, List.mem_cons, hqs]
      · simp only [replaceFirst, h, if_false, Bool.false_eq_true]
        exact List.mem_cons.mpr (Or.inr (ih hqs))

/-- C6 counterexample: the claim fails as stated.  In the sample state the
posts A (id 1) and B (id 2) exist; the valid edit submission on post 2
with the colliding title A is rejected by the unique-title constraint
(server error 500, state unchanged) instead of overwriting the post and
redirecting to its detail page. -/
theorem edit_post_collision_counterexample :
    edit_post 2 ⟨"A", "sub b2", "img b2", "body b2", true⟩ stAdmin
      = ⟨.httpError 500, stAdmin, []⟩ ∧
    Response.httpError 500 ≠ Response.redirect ("/post/" ++ toString 2) [] := by
  constructor
  · decide
  · decide

/-- The record the edit handler writes over a stored post: submitted
title, subtitle, img_url and body, the current identity as author, and
every other field (id, date) kept. -/
def editedPost (post : BlogPost) (form : CreatePostForm) (st : AppState) : BlogPost :=
  { post with title := form.title, subtitle := form.subtitle,
              img_url := form.img_url,
              author_id := (currentUser st).map (fun u => u.id),
              body := form.body }

/-- C6 amended: for every valid edit-post submission on an existing post
whose submitted title does not collide with a different stored post's
title, the handler overwrites exactly the post's title, subtitle, img_url
and body with the submitted values, reassigns the post's author to the
current identity, leaves the post's date (and id) unchanged, leaves every
other post and the other tables unchanged, and redirects to that post's
detail page.  (A colliding title is rejected by the unique constraint with
no change, as the counterexample shows.) -/
theorem edit_post_overwrites (post_id : Nat) (form : CreatePostForm)
    (st : AppState) (post : BlogPost)
    (hpost : getPost st.db post_id = some post)
    (hv : form.valid = true)
    (hnocol : st.db.posts.any (fun p => !(p.id == post.id) && p.title == form.title) = false) :
    (edit_post post_id form st).resp = .redirect ("/post/" ++ toString post.id) [] ∧
    getPost (edit_post post_id form st).st.db post_id = some (editedPost post form st) ∧
    (∀ q ∈ st.db.posts, (q.id == post_id) = false →
      q ∈ (edit_post post_id form st).st.db.posts) ∧
    (edit_post post_id form st).st.db.users = st.db.users ∧
    (edit_post post_id form st).st.db.comments = st.db.comments ∧
    (edit_post post_id form st).st.session = st.session := by
  have hfind : List.find? (fun p => p.id == post_id) st.db.posts = some post := hpost
  have hid := List.find?_some hfind
  have heq : edit_post post_id form st =
      ⟨.redirect ("/post/" ++ toString post.id) [],
       { st with db :=
           { st.db with
             posts := replaceFirst post_id (editedPost post form st) st.db.posts } },
       []⟩ := by
    simp [edit_post, hpost, hv, hnocol, editedPost]
  refine ⟨by rw [heq], ?_, ?_, by rw [heq], by rw [heq], by rw [heq]⟩
  · rw [heq]
    exact find?_replaceFirst st.db.posts post_id _ post hid hfind
  · intro q hq hne
    rw [heq]
    exact mem_replaceFirst_of_ne st.db.posts post_id _ q hq hne

/-- Witness for the amended C6: the admin edits post 2 to the fresh title
B2; the stored row 2 carries the submitted fields, the admin as author and
the old date, post 1 is untouched, and the response redirects to post 2. -/
theorem edit_post_overwrites_witness :
    (edit_post 2 ⟨"B2", "sub b2", "img b2", "body b2", true⟩ stAdmin).resp
      = .redirect ("/post/" ++ toString postB.id) [] ∧
    getPost (edit_post 2 ⟨"B2", "sub b2", "img b2", "body b2", true⟩ stAdmin).st.db 2
      = some ⟨2, some 1, "B2", "sub b2", "May 02, 2024", "body b2", "img b2"⟩ ∧
    postA ∈ (edit_post 2 ⟨"B2", "sub b2", "img b2", "body b2", true⟩ stAdmin).st.db.posts := by
  have h := edit_post_overwrites 2 ⟨"B2", "sub b2", "img b2", "body b2", true⟩
    stAdmin postB (by decide) (by decide) (by decide)
  exact ⟨h.1, h.2.1, h.2.2.1 postA (by decide) (by decide)⟩

/-! Machinery for the title-uniqueness invariant (claim C7): the posts
table is well formed when primary keys are distinct and below the
autoincrement counter and titles are distinct.  Every request preserves
well-formedness, because the only writes to the table go through the
database's unique-title constraint. -/

/-- Well-formedness of the posts table. -/
def wfPosts (db : DB) : Prop :=
  (db.posts.map (fun p => p.id)).Nodup ∧
  (∀ p ∈ db.posts, p.id < db.nextPostId) ∧
  (db.posts.map (fun p => p.title)).Nodup

/-- Unfolding of `replaceFirst` when the head row matches. -/
theorem replaceFirst_cons_pos (post_id : Nat) (newp p : BlogPost) (ps : List BlogPost)
    (h : (p.id == post_id) = true) :
    replaceFirst post_id newp (p :: ps) = newp :: ps := by
  simp [replaceFirst, h]

/-- Unfolding of `replaceFirst` when the head row does not match. -/
theorem replaceFirst_cons_neg (post_id : Nat) (newp p : BlogPost) (ps : List BlogPost)
    (h : (p.id == post_id) = false) :
    replaceFirst post_id newp (p :: ps) = p :: replaceFirst post_id newp ps := by
  simp [replaceFirst, h]

/-- A member of `replaceFirst` is the replacement or an original row. -/
theorem mem_of_mem_replaceFirst (post_id : Nat) (newp q : BlogPost)
    (l : List BlogPost) (hq : q ∈ replaceFirst post_id newp l) :
    q = newp ∨ q ∈ l := by
  induction l with
  | nil => simp [replaceFirst] at hq
  | cons p ps ih =>
    cases h : (p.id == post_id) with
    | true =>
      rw [replaceFirst_cons_pos post_id newp p ps h] at hq
      rcases List.mem_cons.mp hq with h1 | h2
      · exact Or.inl h1
      · exact Or.inr (List.mem_cons.mpr (Or.inr h2))
    | false =>
      rw [replaceFirst_cons_neg post_id newp p ps h] at hq
      rcases List.mem_cons.mp hq with h1 | h2
      · exact Or.inr (List.mem_cons.mpr (Or.inl h1))
      · rcases ih h2 with h3 | h4
        · exact Or.inl h3
        · exact Or.inr (List.mem_cons.mpr (Or.inr h4))

/-- Replacing a row by one with the same id leaves the id column as is. -/
theorem map_id_replaceFirst (post_id : Nat) (newp : BlogPost)
    (hid : newp.id = post_id) (l : List BlogPost) :
    (replaceFirst post_id newp l).map (fun p => p.id) = l.map (fun p => p.id) := by
  induction l with
  | nil => rfl
  | cons p ps ih =>
    cases h : (p.id == post_id) with
    | true =>
      have hp : p.id = post_id := by simpa using h
      rw [replaceFirst_cons_pos post_id newp p ps h]
      simp [hid, hp]
    | false =>
      rw [replaceFirst_cons_neg post_id newp p ps h]
      simp [ih]

/-- The title column stays duplicate-free across an update that passes the
unique-title check, given distinct primary keys. -/
theorem titles_nodup_replaceFirst (post_id : Nat) (newp : BlogPost)
    (l : List BlogPost) :
    ∀ post : BlogPost,
    (l.map (fun p => p.id)).Nodup →
    (l.map (fun p => p.title)).Nodup →
    l.find? (fun p => p.id == post_id) = some post →
    l.any (fun p => !(p.id == post.id) && p.title == newp.title) = false →
    ((replaceFirst post_id newp l).map (fun p => p.title)).Nodup := by
  induction l with
  | nil => intro post _ _ hfound _; simp at hfound
  | cons p ps ih =>
    intro post hids htitles hfound hnocol
    simp only [List.map_cons, List.nodup_cons] at hids htitles
    obtain ⟨hidp, hids'⟩ := hids
    obtain ⟨htp, htitles'⟩ := htitles
    rw [List.any_cons] at hnocol
    have hnp : (!(p.id == post.id) && p.title == newp.title) = false :=
      (Bool.or_eq_false_iff.mp hnocol).1
    have hnps : ps.any (fun q => !(q.id == post.id) && q.title == newp.title) = false :=
      (Bool.or_eq_false_iff.mp hnocol).2
    cases h : (p.id == post_id) with
    | true =>
      have hpost : post = p := by
        rw [List.find?_cons_of_pos ps (by exact h)] at hfound
        exact (Option.some.inj hfound).symm
      rw [replaceFirst_cons_pos post_id newp p ps h]
      simp only [List.map_cons, List.nodup_cons]
      refine ⟨?_, htitles'⟩
      intro hmem
      rcases List.mem_map.mp hmem with ⟨q, hq, hqt⟩
      have hfq := List.any_eq_false.mp hnps q hq
      have hqid : (q.id == post.id) = true := by
        rcases Bool.and_eq_false_iff.mp (Bool.eq_false_iff.mpr hfq) with h1 | h2
        · simpa using h1
        · exact absurd (show (q.title == newp.title) = true by simp [hqt]) (by simp [h2])
      have hqp : q.id = p.id := by rw [← hpost]; simpa using hqid
      exact hidp (List.mem_map.mpr ⟨q, hq, hqp⟩)
    | false =>
      have hfound' : ps.find? (fun q => q.id == post_id) = some post := by
        rw [List.find?_cons_of_neg ps (by simp [h])] at hfound
        exact hfound
      have hpid := List.find?_some hfound'
      have hppid : (p.id == post.id) = false := by
        have h1 : post.id = post_id := by simpa using hpid
        have h2 : p.id ≠ post_id := by simpa using h
        simp [h1, h2]
      have hpt : (p.title == newp.title) = false := by
        rcases Bool.and_eq_false_iff.mp hnp with h1 | h2
        · rw [hppid] at h1; simp at h1
        · exact h2
      rw [replaceFirst_cons_neg post_id newp p ps h]
      simp only [List.map_cons, List.nodup_cons]
      refine ⟨?_, ih post hids' htitles' hfound' hnps⟩
      intro hmem
      rcases List.mem_map.mp hmem with ⟨q, hq, hqt⟩
      rcases mem_of_mem_replaceFirst post_id newp q ps hq with h1 | h2
      · have h3 : newp.title = p.title := by rw [← h1]; exact hqt
        have h4 : p.title ≠ newp.title := by simpa using hpt
        exact h4 h3.symm
      · exact htp (List.mem_map.mpr ⟨q, h2, hqt⟩)

/-- Inserting a fresh row with an unused title preserves well-formedness. -/
theorem wfPosts_insert (db : DB) (newp : BlogPost)
    (hwf : wfPosts db) (hid : newp.id = db.nextPostId)
    (ht : titleTaken db.posts newp.title = false) :
    wfPosts { db with posts := db.posts ++ [newp], nextPostId := db.nextPostId + 1 } := by
  obtain ⟨hids, hlt, htitles⟩ := hwf
  refine ⟨?_, ?_, ?_⟩
  · simp only [List.map_append, List.map_cons, List.map_nil]
    rw [List.nodup_append]
    refine ⟨hids, List.nodup_singleton _, ?_⟩
    intro a ha hb
    rcases List.mem_map.mp ha with ⟨p, hp, hpa⟩
    have hplt := hlt p hp
    have hane : a = newp.id := by simpa using hb
    rw [hane, hid] at hpa
    omega
  · intro p hp
    show p.id < db.nextPostId + 1
    rcases List.mem_append.mp hp with h1 | h2
    · have := hlt p h1
      omega
    · have hpn : p = newp := by simpa using h2
      rw [hpn, hid]
      omega
  · simp only [List.map_append, List.map_cons, List.map_nil]
    rw [List.nodup_append]
    refine ⟨htitles, List.nodup_singleton _, ?_⟩
    intro a ha hb
    rcases List.mem_map.mp ha with ⟨p, hp, hpa⟩
    have hane : a = newp.title := by simpa using hb
    have hfp := List.any_eq_false.mp ht p hp
    rw [hane] at hpa
    exact hfp (by simp [hpa])

/-- Updating a found row through the unique-title check preserves
well-formedness. -/
theorem wfPosts_edit (db : DB) (post_id : Nat) (newp post : BlogPost)
    (hwf : wfPosts db)
    (hfound : db.posts.find? (fun p => p.id == post_id) = some post)
    (hid : newp.id = post.id)
    (hnocol : db.posts.any (fun p => !(p.id == post.id) && p.title == newp.title) = false) :
    wfPosts { db with posts := replaceFirst post_id newp db.posts } := by
  obtain ⟨hids, hlt, htitles⟩ := hwf
  have hpid : post.id = post_id := by simpa using List.find?_some hfound
  have hid' : newp.id = post_id := by rw [hid, hpid]
  refine ⟨?_, ?_, ?_⟩
  · rw [map_id_replaceFirst post_id newp hid' db.posts]
    exact hids
  · intro q hq
    rcases mem_of_mem_replaceFirst post_id newp q db.posts hq with h1 | h2
    · rw [h1, hid]
      exact hlt post (List.mem_of_find?_eq_some hfound)
    · exact hlt q h2
  · exact titles_nodup_replaceFirst post_id newp db.posts post hids htitles hfound hnocol

/-- Deleting rows preserves well-formedness. -/
theorem wfPosts_delete (db : DB) (post_id : Nat) (hwf : wfPosts db) :
    wfPosts { db with posts := db.posts.filter (fun p => !(p.id == post_id)) } := by
  obtain ⟨hids, hlt, htitles⟩ := hwf
  refine ⟨?_, ?_, ?_⟩
  · exact List.Nodup.sublist (List.Sublist.map _ (List.filter_sublist _)) hids
  · intro p hp
    exact hlt p (List.mem_of_mem_filter hp)
  · exact List.Nodup.sublist (List.Sublist.map _ (List.filter_sublist _)) htitles

/-- Every dispatched request preserves well-formedness of the posts
table: the only writes go through the unique-title constraint. -/
theorem wfPosts_dispatch (env : Env) (req : Request) (st : AppState)
    (hwf : wfPosts st.db) : wfPosts (dispatch env req st).st.db := by
  obtain ⟨hids, hlt, htitles⟩ := hwf
  cases req with
  | reqRegister form isPost =>
    simp only [dispatch, register]
    split
    · split <;> exact ⟨hids, hlt, htitles⟩
    · exact ⟨hids, hlt, htitles⟩
  | reqLogin form =>
    simp only [dispatch, login]
    split
    · split
      · split <;> exact ⟨hids, hlt, htitles⟩
      · exact ⟨hids, hlt, htitles⟩
    · exact ⟨hids, hlt, htitles⟩
  | reqLogout =>
    simp only [dispatch, login_required, logout]
    split <;> exact ⟨hids, hlt, htitles⟩
  | reqIndex => exact ⟨hids, hlt, htitles⟩
  | reqShowPost post_id form =>
    simp only [dispatch, show_post]
    split
    · exact ⟨hids, hlt, htitles⟩
    · split
      · split <;> exact ⟨hids, hlt, htitles⟩
      · exact ⟨hids, hlt, htitles⟩
  | reqAddNewPost form today =>
    simp only [dispatch, admin_only, add_new_post]
    split
    · split
      · split
        · exact ⟨hids, hlt, htitles⟩
        · next ht =>
          have ht' : titleTaken st.db.posts form.title = false := by simpa using ht
          exact wfPosts_insert st.db _ ⟨hids, hlt, htitles⟩ rfl ht'
      · exact ⟨hids, hlt, htitles⟩
    · exact ⟨hids, hlt, htitles⟩
  | reqEditPost post_id form =>
    simp only [dispatch, admin_only, edit_post]
    split
    · split
      · exact ⟨hids, hlt, htitles⟩
      · next post hpost =>
        split
        · split
          · exact ⟨hids, hlt, htitles⟩
          · next hcol =>
            have hcol' : st.db.posts.any
                (fun p => !(p.id == post.id) && p.title == form.title) = false := by
              simpa using hcol
            exact wfPosts_edit st.db post_id (editedPost post form st) post
              ⟨hids, hlt, htitles⟩ hpost rfl hcol'
        · exact ⟨hids, hlt, htitles⟩
    · exact ⟨hids, hlt, htitles⟩
  | reqDeletePost post_id =>
    simp only [dispatch, admin_only, delete_post]
    split
    · split
      · exact ⟨hids, hlt, htitles⟩
      · exact wfPosts_delete st.db post_id ⟨hids, hlt, htitles⟩
    · exact ⟨hids, hlt, htitles⟩
  | reqAbout => exact ⟨hids, hlt, htitles⟩
  | reqContact isPost n e m =>
    simp only [dispatch, login_required, contact]
    split
    · split <;> exact ⟨hids, hlt, htitles⟩
    · exact ⟨hids, hlt, htitles⟩

/-- C7: title uniqueness is an invariant of the stored posts: after any
sequence of requests from the fresh database, no two BlogPost rows share
the same title; in particular a create-post attempt whose title matches an
existing post's title is rejected whole (server error, state unchanged),
so the colliding attempt yields no second row and no partial write. -/
theorem title_uniqueness_invariant (env : Env) :
    (∀ reqs : List Request, titlesUnique (runAll env reqs initState)) ∧
    (∀ (st : AppState) (form : CreatePostForm) (today : String),
      isAdmin st = true → form.valid = true →
      titleTaken st.db.posts form.title = true →
      dispatch env (.reqAddNewPost form today) st = ⟨.httpError 500, st, []⟩) := by
  constructor
  · have hrun : ∀ (reqs : List Request) (st : AppState), wfPosts st.db →
        wfPosts (runAll env reqs st).db := by
      intro reqs
      induction reqs with
      | nil => intro st h; exact h
      | cons r rs ih =>
        intro st h
        exact ih _ (wfPosts_dispatch env r st h)
    intro reqs
    have hinit : wfPosts initState.db :=
      ⟨List.nodup_nil, fun p hp => absurd hp (List.not_mem_nil p), List.nodup_nil⟩
    exact (hrun reqs initState hinit).2.2
  · intro st form today hadm hv ht
    simp [dispatch, admin_only, add_new_post, hadm, hv, ht]

/-- Witness for C7: three requests (a registration and two post creations
with the same title) leave the titles duplicate-free, and the colliding
second create against the sample state is answered 500 with the state
unchanged. -/
theorem title_uniqueness_invariant_witness :
    titlesUnique (runAll envSample
      [.reqRegister ⟨"Admin", "admin@blog.io", "adminpw", true⟩ true,
       .reqAddNewPost ⟨"T1", "s1", "i1", "b1", true⟩ "May 01, 2024",
       .reqAddNewPost ⟨"T1", "s2", "i2", "b2", true⟩ "May 02, 2024"] initState) ∧
    dispatch envSample
      (.reqAddNewPost ⟨"A", "sub a2", "img a2", "body a2", true⟩ "May 03, 2024") stAdmin
      = ⟨.httpError 500, stAdmin, []⟩ :=
  ⟨(title_uniqueness_invariant envSample).1
     [.reqRegister ⟨"Admin", "admin@blog.io", "adminpw", true⟩ true,
      .reqAddNewPost ⟨"T1", "s1", "i1", "b1", true⟩ "May 01, 2024",
      .reqAddNewPost ⟨"T1", "s2", "i2", "b2", true⟩ "May 02, 2024"],
   (title_uniqueness_invariant envSample).2 stAdmin
     ⟨"A", "sub a2", "img a2", "body a2", true⟩ "May 03, 2024"
     (by decide) (by decide) (by decide)⟩

end Blog
